import Mathlib

/-!
Verification of the normalize → filter → sort pipeline of the market-browser
application (`app/main.py`) against its natural-language specification.

The Python code is shallowly embedded:
* cell values of raw records and data-frame cells are the inductive `Value`
  (finite floats as exact rationals, float NaN, pandas NA, Python None,
  strings);
* fallible Python code is embedded in `Except PyErr`;
* `datetime.fromisoformat` is embedded by an executable parser covering the
  `YYYY-MM-DD[<sep>HH:MM[:SS[.ffffff]]][+HH:MM|-HH:MM]` family of inputs
  (the shapes produced after the code's `replace("Z", "+00:00")` step);
  a result is `aware` exactly when an explicit offset is present;
* a pandas `DataFrame` is a column list plus a list of rows (association
  lists); a missing cell of a present column is NaN, and `row.get` of an
  absent column is None, as in `DataFrame.apply(axis=1)`;
* `Series.str.contains` (default `regex=True`) is embedded for the fragment
  of Python regular expressions whose patterns consist of literal characters
  and `.` — the only patterns considered in the theorems below;
* `DataFrame.sort_values` is embedded as a stable key sort with missing keys
  placed last.  pandas' default `kind` is quicksort, which does not promise
  any particular order among equal keys, so no theorem below relies on the
  model's tie order: it is used only where keys are pairwise distinct or
  where the row list is returned unchanged.
-/

namespace PMA

/-- A Python/pandas cell value: None, float NaN, pandas NA, a finite float
(modelled as an exact rational), or a string. -/
inductive Value where
  | none : Value
  | nan : Value
  | na : Value
  | num : ℚ → Value
  | str : String → Value
deriving DecidableEq, Repr

/-- The Python exception classes the embedded code can raise. -/
inductive PyErr where
  | typeError : PyErr
  | valueError : PyErr
deriving DecidableEq, Repr

/-- Python truthiness (`bool(v)`).  `bool(pd.NA)` raises `TypeError`;
NaN is truthy; None and the empty string are falsy. -/
def pyTruthy : Value → Except PyErr Bool
  | Value.none => Except.ok false
  | Value.nan => Except.ok true
  | Value.na => Except.error PyErr.typeError
  | Value.num q => Except.ok (decide (q ≠ 0))
  | Value.str s => Except.ok (decide (s ≠ ""))

/-- Python `a or b or c`: the first truthy operand, or the last operand when
all are falsy. -/
def pyOr3 (a b c : Value) : Except PyErr Value := do
  if (← pyTruthy a) then pure a
  else if (← pyTruthy b) then pure b
  else pure c

/-- `dict.get(k)`: the stored value, or None when the key is absent. -/
def dictGet (m : List (String × Value)) (k : String) : Value :=
  (m.lookup k).getD Value.none

/-! ### `datetime.fromisoformat` -/

def digitVal? (c : Char) : Option ℕ :=
  if '0' ≤ c ∧ c ≤ '9' then some (c.toNat - 48) else Option.none

def read2 : List Char → Option (ℕ × List Char)
  | a :: b :: rest => do
      pure ((← digitVal? a) * 10 + (← digitVal? b), rest)
  | _ => Option.none

def read4 : List Char → Option (ℕ × List Char)
  | a :: b :: c :: d :: rest => do
      pure ((← digitVal? a) * 1000 + (← digitVal? b) * 100 +
            (← digitVal? c) * 10 + (← digitVal? d), rest)
  | _ => Option.none

def expectChar (c : Char) : List Char → Option (List Char)
  | x :: rest => if x = c then some rest else Option.none
  | [] => Option.none

/-- Consume a maximal run of digits, returning their value and count. -/
def readFracDigits : List Char → ℕ → ℕ → ℕ × ℕ × List Char
  | c :: rest, acc, n =>
      match digitVal? c with
      | some d => readFracDigits rest (acc * 10 + d) (n + 1)
      | Option.none => (acc, n, c :: rest)
  | [], acc, n => (acc, n, [])

def isLeapYear (y : ℕ) : Bool :=
  (y % 4 = 0 ∧ y % 100 ≠ 0) ∨ y % 400 = 0

def daysInMonth (y m : ℕ) : ℕ :=
  if m = 1 then 31
  else if m = 2 then (if isLeapYear y then 29 else 28)
  else if m = 3 then 31
  else if m = 4 then 30
  else if m = 5 then 31
  else if m = 6 then 30
  else if m = 7 then 31
  else if m = 8 then 31
  else if m = 9 then 30
  else if m = 10 then 31
  else if m = 11 then 30
  else 31

/-- Days from 1970-01-01 to the civil date `y-m-d` (valid for `y ≥ 1`). -/
def daysFromCivil (y m d : ℕ) : ℤ :=
  let y' := if m ≤ 2 then y - 1 else y
  let era := y' / 400
  let yoe := y' % 400
  let mp := if 3 ≤ m then m - 3 else m + 9
  let doy := (153 * mp + 2) / 5 + (d - 1)
  let doe := yoe * 365 + yoe / 4 - yoe / 100 + doy
  ((era * 146097 + doe : ℕ) : ℤ) - 719468

/-- A parsed `datetime`: microseconds since the epoch — Python datetimes
have exactly microsecond resolution — where a naive value is stored as if it
were UTC, but `aware = false` records that it carries no `tzinfo`. -/
structure PyDatetime where
  utcMicros : ℤ
  aware : Bool
deriving DecidableEq, Repr

/-- Microseconds-within-day and offset of the time-of-day part, or `none`
if ill-formed.  Accepts `HH:MM`, `HH:MM:SS`, `HH:MM:SS.f⁺` (1–6 fractional
digits), each optionally followed by a `±HH:MM` offset. -/
def parseTimePart (cs : List Char) : Option (ℕ × Option ℤ) := do
  let (hh, cs) ← read2 cs
  let cs ← expectChar ':' cs
  let (mi, cs) ← read2 cs
  if hh ≥ 24 ∨ mi ≥ 60 then Option.none else
  let (secMicros, cs) ←
    match expectChar ':' cs with
    | some cs' => do
        let (ss, cs'') ← read2 cs'
        if ss ≥ 60 then Option.none else
        match cs'' with
        | '.' :: cs3 =>
            let (fv, fn, cs4) := readFracDigits cs3 0 0
            if fn = 0 ∨ fn > 6 then Option.none
            else some ((ss * 1000000 + fv * 10 ^ (6 - fn), cs4))
        | _ => some ((ss * 1000000, cs''))
    | Option.none => some ((0, cs))
  let base : ℕ := (hh * 3600 + mi * 60) * 1000000 + secMicros
  match cs with
  | [] => some (base, Option.none)
  | sign :: cs' =>
      if sign = '+' ∨ sign = '-' then do
        let (oh, cs'') ← read2 cs'
        let cs3 ← expectChar ':' cs''
        let (om, cs4) ← read2 cs3
        if oh ≥ 24 ∨ om ≥ 60 ∨ cs4 ≠ [] then Option.none else
        let off : ℤ := ((oh * 3600 + om * 60) * 1000000 : ℕ)
        some (base, some (if sign = '-' then -off else off))
      else Option.none

/-- `datetime.fromisoformat` on the input shapes reachable from the code
(after `Z` has been rewritten to `+00:00`): a `YYYY-MM-DD` civil date,
optionally followed by a one-character separator and a time-of-day with an
optional `±HH:MM` offset.  Any other input is a `ValueError` (`none`). -/
def fromisoformat (s : String) : Option PyDatetime := do
  let cs := s.data
  let (y, cs) ← read4 cs
  let cs ← expectChar '-' cs
  let (m, cs) ← read2 cs
  let cs ← expectChar '-' cs
  let (d, cs) ← read2 cs
  if y = 0 ∨ m = 0 ∨ m > 12 ∨ d = 0 ∨ d > daysInMonth y m then Option.none else
  let dayBase : ℤ := daysFromCivil y m d * 86400000000
  match cs with
  | [] => some { utcMicros := dayBase, aware := false }
  | _ :: timeCs => do
      let (tod, off?) ← parseTimePart timeCs
      match off? with
      | some off =>
          some { utcMicros := dayBase + (tod : ℤ) - off, aware := true }
      | Option.none => some { utcMicros := dayBase + (tod : ℤ), aware := false }

/-- `date_str.replace("Z", "+00:00")`: every `Z` is rewritten. -/
def replaceZ (s : String) : String :=
  String.mk (s.data.foldr
    (fun c acc =>
      if c = 'Z' then '+' :: '0' :: '0' :: ':' :: '0' :: '0' :: acc
      else c :: acc) [])

/-- Round `num / den` (for `den > 0`) to the nearest integer, half to even
— the rounding mode of Python's `round`. -/
def roundHalfEvenScaled (num den : ℤ) : ℤ :=
  let q := Int.ediv num den
  let r := Int.emod num den
  if 2 * r < den then q
  else if den < 2 * r then q + 1
  else if Int.emod q 2 = 0 then q else q + 1

/-- `round(delta.total_seconds() / 3600, 2)` for a delta of `Δ`
microseconds: the hour difference rounded half-to-even at two decimal
places (exactly `Δ / 36e6` hundredths of an hour before rounding). -/
def round2Hours (Δ : ℤ) : ℚ :=
  ((roundHalfEvenScaled Δ 36000000 : ℤ) : ℚ) / 100

/-- The body of `hours_to_expiry` after the date value has been selected:
non-strings and the empty string yield `0.0`; a string that fails to parse
yields `0.0` (the `ValueError` branch); a string that parses to an aware
datetime yields the rounded signed hour difference from `now`; a string that
parses to a naive datetime reaches `dt - datetime.now(timezone.utc)`, which
raises `TypeError` in Python. -/
def hoursFromChosen (now : ℤ) (v : Value) : Except PyErr ℚ :=
  match v with
  | Value.str s =>
      if s = "" then Except.ok 0
      else
        match fromisoformat (replaceZ s) with
        | Option.none => Except.ok 0
        | some dt =>
            if dt.aware then Except.ok (round2Hours (dt.utcMicros - now))
            else Except.error PyErr.typeError
  | _ => Except.ok 0

/-- `hours_to_expiry(market)` (`app/main.py:41`), with the current UTC time
`now` (microseconds since the epoch) made explicit.  The date value is
`market.get("endsAt") or market.get("endDate") or market.get("expiry")`. -/
def hours_to_expiry (now : ℤ) (market : List (String × Value)) :
    Except PyErr ℚ := do
  hoursFromChosen now
    (← pyOr3 (dictGet market "endsAt") (dictGet market "endDate")
      (dictGet market "expiry"))

/-! ### DataFrames -/

/-- One data-frame row: an association list from column names to cells. -/
abbrev Row := List (String × Value)

/-- A pandas `DataFrame`: its column list and its rows, in order. -/
structure DataFrame where
  cols : List String
  rows : List Row
deriving DecidableEq, Repr

/-- The cell of a row at a column known to exist: a key missing from the
association list is a NaN cell, as pandas fills absent cells with NaN. -/
def cell (r : Row) (k : String) : Value :=
  (r.lookup k).getD Value.nan

/-- `row.get(k)` inside `DataFrame.apply(axis=1)`: None when the column is
absent from the frame, the (possibly NaN) cell otherwise. -/
def rowGet (cols : List String) (r : Row) (k : String) : Value :=
  if k ∈ cols then cell r k else Value.none

/-- Column assignment on one row: replace the cell if the key exists,
append it otherwise. -/
def setCell (r : Row) (k : String) (v : Value) : Row :=
  if (r.lookup k).isSome then
    r.map (fun p => if p.1 = k then (k, v) else p)
  else r ++ [(k, v)]

/-- Column assignment on the column list. -/
def addCol (cols : List String) (c : String) : List String :=
  if c ∈ cols then cols else cols ++ [c]

/-- Is a value one of the missing markers (NaN, pandas NA, None)? -/
def isMissing : Value → Bool
  | Value.nan => true
  | Value.na => true
  | Value.none => true
  | _ => false

/-- `df[["yesPrice", "noPrice"]].max(axis=1, skipna=True)` on one row:
missing values are skipped; both missing gives NaN; two numbers (or two
strings) compare by their order; comparing a number with a string raises
`TypeError`, as the object-dtype reduction does in pandas. -/
def pymax2 (a b : Value) : Except PyErr Value :=
  if isMissing a then Except.ok (if isMissing b then Value.nan else b)
  else if isMissing b then Except.ok a
  else
    match a, b with
    | Value.num x, Value.num y => Except.ok (Value.num (max x y))
    | Value.str x, Value.str y => Except.ok (Value.str (max x y))
    | _, _ => Except.error PyErr.typeError

/-- `hours_to_expiry` as applied row-wise by `DataFrame.apply(axis=1)`:
`market.get` is the Series `get` of `rowGet`. -/
def hoursOfRow (now : ℤ) (cols : List String) (r : Row) : Except PyErr ℚ := do
  hoursFromChosen now
    (← pyOr3 (rowGet cols r "endsAt") (rowGet cols r "endDate")
      (rowGet cols r "expiry"))

/-- `add_computed_columns(df)` (`app/main.py:57`): a copy of `df` with a
`probability` column (row-wise NaN-skipping max of the raw `yesPrice` and
`noPrice` cells when both columns exist, pandas `NA` for every row
otherwise) and an `hoursLeft` column (`hours_to_expiry` applied to each
row). -/
def add_computed_columns (now : ℤ) (df : DataFrame) : Except PyErr DataFrame := do
  let rows1 ←
    if "yesPrice" ∈ df.cols ∧ "noPrice" ∈ df.cols then
      df.rows.mapM (fun r => do
        let p ← pymax2 (cell r "yesPrice") (cell r "noPrice")
        pure (setCell r "probability" p))
    else
      pure (df.rows.map (fun r => setCell r "probability" Value.na))
  let cols1 := addCol df.cols "probability"
  let rows2 ← rows1.mapM (fun r => do
    let h ← hoursOfRow now cols1 r
    pure (setCell r "hoursLeft" (Value.num h)))
  pure { cols := addCol cols1 "hoursLeft", rows := rows2 }

/-! ### The search predicate (`Series.str.contains`) -/

/-- Match a pattern of literal characters and `.` at the start of the text
(the fragment of Python regular expressions used here). -/
def reMatchAt : List Char → List Char → Bool
  | [], _ => true
  | _ :: _, [] => false
  | p :: ps, c :: cs => (p == '.' || p == c) && reMatchAt ps cs

/-- `re.search`: match the pattern at some position of the text. -/
def reSearch (pat : List Char) : List Char → Bool
  | [] => reMatchAt pat []
  | c :: cs => reMatchAt pat (c :: cs) || reSearch pat cs

/-- ASCII lower-casing of one character (`str.lower()` / `re.IGNORECASE`
restricted to ASCII, which covers every string the theorems consider). -/
def lowerChar (c : Char) : Char :=
  if 'A' ≤ c ∧ c ≤ 'Z' then Char.ofNat (c.toNat + 32) else c

def lowerChars (cs : List Char) : List Char := cs.map lowerChar

/-- `Series.str.contains(pat, case=False, na=False)` on one cell: regex
search of the lowered pattern in the lowered string; non-strings (including
NaN) give `False`. -/
def pyStrContains (v : Value) (pat : String) : Bool :=
  match v with
  | Value.str s => reSearch (lowerChars pat.data) (lowerChars s.data)
  | _ => false

/-- The row predicate of the search filter (`app/main.py:80`): the
`question` match or the `slug` match, each `False` when its column is
absent from the frame. -/
def searchKeep (cols : List String) (r : Row) (text : String) : Bool :=
  (if "question" ∈ cols then pyStrContains (cell r "question") text else false)
  || (if "slug" ∈ cols then pyStrContains (cell r "slug") text else false)

/-! ### `filter_dataframe` -/

/-- `series >= threshold` used as a boolean row mask: a number compares, a
NaN compares `False`, a pandas `NA` cell makes the mask non-boolean and the
row selection raise `ValueError`, and a string or None cell fails the
`>=` comparison with `TypeError`. -/
def geMask (v : Value) (t : ℚ) : Except PyErr Bool :=
  match v with
  | Value.num q => Except.ok (decide (t ≤ q))
  | Value.nan => Except.ok false
  | Value.na => Except.error PyErr.valueError
  | _ => Except.error PyErr.typeError

/-- `series.isin(categories)` on one cell: exact membership; non-strings
(including NaN) are not members of a list of strings. -/
def isinCategories (v : Value) (categories : List String) : Bool :=
  match v with
  | Value.str c => categories.contains c
  | _ => false

/-- `filter_dataframe(df, search, categories, hide_sports, min_prob,
min_hours, min_open)` (`app/main.py:68`). -/
def filter_dataframe (df : DataFrame) (search : String)
    (categories : List String) (hideSports : Bool)
    (minProb minHours minOpen : ℚ) : Except PyErr DataFrame := do
  let rows := df.rows
  let rows :=
    if search ≠ "" then rows.filter (fun r => searchKeep df.cols r search)
    else rows
  let rows :=
    if hideSports ∧ "category" ∈ df.cols then
      rows.filter (fun r => ! pyStrContains (cell r "category") "sports")
    else rows
  let rows :=
    if categories ≠ [] ∧ "category" ∈ df.cols ∧ "All" ∉ categories then
      rows.filter (fun r => isinCategories (cell r "category") categories)
    else rows
  let rows ←
    if "probability" ∈ df.cols then
      rows.filterM (fun r => geMask (cell r "probability") minProb)
    else pure rows
  let rows ←
    if "hoursLeft" ∈ df.cols then
      rows.filterM (fun r => geMask (cell r "hoursLeft") minHours)
    else pure rows
  let rows ←
    if "openInterest" ∈ df.cols then
      rows.filterM (fun r => geMask (cell r "openInterest") minOpen)
    else pure rows
  pure { cols := df.cols, rows := rows }

/-! ### `sort_dataframe` -/

/-- Strict lexicographic order on character lists (string comparison by
code points, as Python compares strings). -/
def charsLtB : List Char → List Char → Bool
  | [], [] => false
  | [], _ :: _ => true
  | _ :: _, [] => false
  | a :: as, b :: bs =>
      if a.toNat < b.toNat then true
      else if b.toNat < a.toNat then false
      else charsLtB as bs

/-- Non-strict rational comparison by cross-multiplication (equivalent to
`≤` on `ℚ`; denominators are positive). -/
def qleB (x y : ℚ) : Bool :=
  decide (x.num * (y.den : ℤ) ≤ y.num * (x.den : ℤ))

/-- Key comparison between two present (non-missing) cells.  Two numbers or
two strings compare by their order; pandas raises on a heterogeneous object
column, which no theorem below exercises, so the model simply places
numbers before strings. -/
def valLe : Value → Value → Bool
  | Value.num x, Value.num y => qleB x y
  | Value.str x, Value.str y => ! charsLtB y.data x.data
  | Value.num _, Value.str _ => true
  | Value.str _, Value.num _ => false
  | _, _ => true

/-- The row order of `sort_values(col, ascending=asc)`: missing keys go
last (`na_position="last"`), others by `valLe` in the requested
direction. -/
def keyLe (asc : Bool) (a b : Value) : Bool :=
  if isMissing a then isMissing b
  else if isMissing b then true
  else if asc then valLe a b else valLe b a

/-- Insert an element into a sorted list, before the first element it is
`le`-related to (so that earlier elements stay ahead of equal later
ones). -/
def insertLe {α : Type} (le : α → α → Bool) (x : α) : List α → List α
  | [] => [x]
  | y :: ys => if le x y then x :: y :: ys else y :: insertLe le x ys

/-- Stable insertion sort. -/
def stableSort {α : Type} (le : α → α → Bool) : List α → List α
  | [] => []
  | x :: xs => insertLe le x (stableSort le xs)

/-- `df.sort_values(col, ascending=asc)` (see the module comment for the
tie-order caveat of pandas' default quicksort). -/
def sortValues (df : DataFrame) (col : String) (asc : Bool) : DataFrame :=
  { cols := df.cols,
    rows := stableSort (fun r1 r2 => keyLe asc (cell r1 col) (cell r2 col))
      df.rows }

/-- The raw date column the sort uses: the first of `endDate`, `endsAt`,
`expiry` present in the frame (`app/main.py:115`). -/
def firstDateCol (cols : List String) : Option String :=
  if "endDate" ∈ cols then some "endDate"
  else if "endsAt" ∈ cols then some "endsAt"
  else if "expiry" ∈ cols then some "expiry"
  else Option.none

/-- The two trailing `probability` branches of `sort_dataframe`. -/
def sortByProbability (df : DataFrame) (opt : String) : DataFrame :=
  if opt = "probability asc" ∧ "probability" ∈ df.cols then
    sortValues df "probability" true
  else if opt = "probability desc" ∧ "probability" ∈ df.cols then
    sortValues df "probability" false
  else df

/-- `sort_dataframe(df, option)` (`app/main.py:108`). -/
def sort_dataframe (df : DataFrame) (opt : String) : DataFrame :=
  if opt = "24h volume" ∧ "volume24hr" ∈ df.cols then
    sortValues df "volume24hr" false
  else if opt = "openInterest" ∧ "openInterest" ∈ df.cols then
    sortValues df "openInterest" false
  else
    match firstDateCol df.cols with
    | some dcol =>
        if opt = "endDate asc" then sortValues df dcol true
        else if opt = "endDate desc" then sortValues df dcol false
        else sortByProbability df opt
    | Option.none => sortByProbability df opt

/-! ### Spec-side definitions

These follow the specification's words, for comparison against the embedded
code. -/

/-- Does `p` start the text `s`? -/
def startsWithChars : List Char → List Char → Bool
  | [], _ => true
  | _ :: _, [] => false
  | a :: as, b :: bs => (a == b) && startsWithChars as bs

/-- Does `p` occur contiguously inside the text? -/
def containsChars (p : List Char) : List Char → Bool
  | [] => startsWithChars p []
  | c :: cs => startsWithChars p (c :: cs) || containsChars p cs

/-- Spec-side: `needle` occurs in `hay` as a case-insensitive substring. -/
def specContainsCI (needle hay : String) : Bool :=
  containsChars (lowerChars needle.data) (lowerChars hay.data)

/-- A plain decimal literal (`[±]digits[.digits]`), as a rational.  Python's
`float` accepts further shapes (exponents, `inf`, `nan`, padding); no theorem
below evaluates the spec-side coercion on such strings. -/
def parseDecimal (s : String) : Option ℚ :=
  let (sign, cs) :=
    match s.data with
    | '-' :: rest => ((-1 : ℚ), rest)
    | '+' :: rest => ((1 : ℚ), rest)
    | cs => ((1 : ℚ), cs)
  let (ip, ni, cs) := readFracDigits cs 0 0
  match cs with
  | [] => if ni = 0 then Option.none else some (sign * (ip : ℚ))
  | '.' :: cs2 =>
      let (fp, nf, cs3) := readFracDigits cs2 0 0
      if cs3 ≠ [] ∨ (ni = 0 ∧ nf = 0) then Option.none
      else some (sign * ((ip : ℚ) + (fp : ℚ) / ((10 : ℚ) ^ nf)))
  | _ => Option.none

/-- Spec-side numeric coercion: "attempt to parse as a floating-point
number; on failure, the field becomes absent".  A number is itself, a
string is parsed, missing markers are absent. -/
def specFloat : Value → Option ℚ
  | Value.num q => some q
  | Value.str s => parseDecimal s
  | _ => Option.none

/-- Spec-side probability: "maximum of the coerced `yesPrice` and `noPrice`,
ignoring absent values; if both absent, `probability` is absent" (absent is
rendered as the NaN cell). -/
def specProbability (a b : Value) : Value :=
  match specFloat a, specFloat b with
  | some x, some y => Value.num (max x y)
  | some x, Option.none => Value.num x
  | Option.none, some y => Value.num y
  | Option.none, Option.none => Value.nan

/-- Spec-side invariant on a probability cell: "either absent or within
[0,1]". -/
def probAbsentOrUnit (v : Value) : Bool :=
  isMissing v ||
    (match v with
     | Value.num q => decide (0 ≤ q ∧ q ≤ 1)
     | _ => false)

/-- Is the value a finite number or one of the missing markers (the shapes a
price cell takes once numeric data has been loaded)? -/
def numOrMissing : Value → Bool
  | Value.num _ => true
  | v => isMissing v

/-! ### The regex fragment on metacharacter-free patterns -/

theorem reMatchAt_eq_startsWith :
    ∀ (pat s : List Char), '.' ∉ pat →
      reMatchAt pat s = startsWithChars pat s := by
  intro pat
  induction pat with
  | nil => intro s _; cases s <;> rfl
  | cons p ps ih =>
      intro s h
      have hp : (p == '.') = false := by
        simp only [List.mem_cons, not_or] at h
        simpa [beq_iff_eq] using fun hc => h.1 hc.symm
      have hps : '.' ∉ ps := by
        simp only [List.mem_cons, not_or] at h
        exact h.2
      cases s with
      | nil => rfl
      | cons c cs =>
          simp [reMatchAt, startsWithChars, hp, ih cs hps]

theorem reSearch_eq_contains :
    ∀ (pat s : List Char), '.' ∉ pat →
      reSearch pat s = containsChars pat s := by
  intro pat s h
  induction s with
  | nil => simp [reSearch, containsChars, reMatchAt_eq_startsWith _ _ h]
  | cons c cs ih =>
      simp [reSearch, containsChars, reMatchAt_eq_startsWith _ _ h, ih]


/-! ### Claims -/

/-- Claim C1.  The claim that `hours_to_expiry` never raises is contradicted
by the code: a date string that parses successfully but carries no timezone
offset yields a naive datetime, and `dt - datetime.now(timezone.utc)` then
raises `TypeError` (aware-minus-naive subtraction). -/
theorem hours_to_expiry_naive_timestamp_raises :
    hours_to_expiry 0 [("endsAt", Value.str "2030-01-01T00:00:00")]
      = Except.error PyErr.typeError := rfl

/-- Claim C2, counterexample.  For a record carrying both `endDate` and
`endsAt` (two valid UTC timestamps five hours apart), `hours_to_expiry`
computes from `endsAt` (525960 hours from the epoch), not from `endDate`
(which would give 525965 hours): the lookup order in the code is `endsAt`,
`endDate`, `expiry`. -/
theorem hours_to_expiry_prefers_endsAt_cex :
    hours_to_expiry 0
        [("endDate", Value.str "2030-01-01T05:00:00+00:00"),
         ("endsAt", Value.str "2030-01-01T00:00:00+00:00")]
      = Except.ok ((52596000 : ℚ) / 100)
  ∧ hoursFromChosen 0 (Value.str "2030-01-01T05:00:00+00:00")
      = Except.ok ((52596500 : ℚ) / 100)
  ∧ (52596000 : ℚ) / 100 = 525960
  ∧ (52596500 : ℚ) / 100 = 525965
  ∧ (52596000 : ℚ) / 100 ≠ (52596500 : ℚ) / 100 :=
  ⟨rfl, rfl, by norm_num, by norm_num, by norm_num⟩

/-- Claim C2, amended.  The end-of-life date value is found by checking
`endsAt` first, then `endDate`, then `expiry`: whenever the record's
`endsAt` value is truthy, `hoursLeft` is computed from it, ignoring
`endDate` and `expiry`. -/
theorem hours_to_expiry_uses_endsAt_first (now : ℤ)
    (m : List (String × Value))
    (h : pyTruthy (dictGet m "endsAt") = Except.ok true) :
    hours_to_expiry now m = hoursFromChosen now (dictGet m "endsAt") := by
  have hsel : pyOr3 (dictGet m "endsAt") (dictGet m "endDate")
      (dictGet m "expiry") = Except.ok (dictGet m "endsAt") := by
    unfold pyOr3
    rw [h]
    rfl
  unfold hours_to_expiry
  rw [hsel]
  rfl

theorem hours_to_expiry_uses_endsAt_first_witness :
    hours_to_expiry 0 [("endsAt", Value.str "x")]
      = hoursFromChosen 0 (dictGet [("endsAt", Value.str "x")] "endsAt") :=
  hours_to_expiry_uses_endsAt_first 0 [("endsAt", Value.str "x")] rfl

/-- Claim C3.  The claim that a timestamp without a timezone offset is
treated as UTC is contradicted by the code: the `Z` and explicit-offset
forms of the same wall-clock time produce the expected signed rounded hours
(538688.5, and 538686.5 once the `+02:00` offset is converted to UTC), but
the naive form raises `TypeError` instead of being treated as UTC. -/
theorem hours_to_expiry_no_offset_not_utc :
    hours_to_expiry 0 [("endDate", Value.str "2031-06-15T08:30:00Z")]
      = Except.ok ((53868850 : ℚ) / 100)
  ∧ hours_to_expiry 0 [("endDate", Value.str "2031-06-15T08:30:00+02:00")]
      = Except.ok ((53868650 : ℚ) / 100)
  ∧ hours_to_expiry 0 [("endDate", Value.str "2031-06-15T08:30:00")]
      = Except.error PyErr.typeError
  ∧ (53868850 : ℚ) / 100 = 538688.5
  ∧ (53868650 : ℚ) / 100 = 538686.5 :=
  ⟨rfl, rfl, rfl, by norm_num, by norm_num⟩

/-- The raw frame of claim C4's counterexample: both price columns present,
`yesPrice` a non-numeric string, `noPrice` a NaN cell. -/
def df4 : DataFrame :=
  ⟨["yesPrice", "noPrice"],
   [[("yesPrice", Value.str "abc"), ("noPrice", Value.nan)]]⟩

/-- Claim C4, counterexample.  No floating-point coercion happens: on a
record with `yesPrice = "abc"` and `noPrice` missing, the code's
`probability` is the string `"abc"` — present, not numeric, not within
[0,1] — whereas the spec-side coercion-based probability is absent. -/
theorem add_computed_columns_no_coercion_cex :
    (add_computed_columns 0 df4).map
        (fun d => d.rows.map (fun r => cell r "probability"))
      = Except.ok [Value.str "abc"]
  ∧ specProbability (Value.str "abc") Value.nan = Value.nan
  ∧ probAbsentOrUnit (Value.str "abc") = false := ⟨rfl, rfl, rfl⟩

/-- Claim C4, amended.  The row-wise `probability` reduction (`pymax2`,
applied by `add_computed_columns` when both price columns are present) takes
the raw cell values without coercion; on cells that are already numbers or
missing markers it agrees with the spec's "max over present values, absent
when both absent". -/
theorem pymax2_matches_spec_on_numeric (a b : Value)
    (ha : numOrMissing a = true) (hb : numOrMissing b = true) :
    pymax2 a b = Except.ok (specProbability a b) := by
  cases a <;> cases b <;>
    simp_all [numOrMissing, isMissing, pymax2, specProbability, specFloat]

theorem pymax2_matches_spec_on_numeric_witness :
    pymax2 (Value.num (9 / 10)) Value.nan
      = Except.ok (specProbability (Value.num (9 / 10)) Value.nan) :=
  pymax2_matches_spec_on_numeric (Value.num (9 / 10)) Value.nan rfl rfl

/-- The filtered frame of claim C6's counterexample: two records whose raw
`endDate` strings order one way lexicographically and the other way by
remaining time (the `+23:00` offset makes the lexicographically later
string denote the earlier instant). -/
def df6 : DataFrame :=
  ⟨["endDate", "hoursLeft"],
   [[("endDate", Value.str "2030-01-02T00:00:00+23:00"),
     ("hoursLeft", Value.num 525961)],
    [("endDate", Value.str "2030-01-02T00:00:00+00:00"),
     ("hoursLeft", Value.num 525984)]]⟩

/-- Claim C6, counterexample.  "endDate asc" does not order by the derived
time-remaining field: on `df6` the code sorts by the raw `endDate` strings,
producing an order different from the `hoursLeft`-ascending order (which is
the input order). -/
theorem sort_endDate_not_by_hoursLeft_cex :
    sort_dataframe df6 "endDate asc" ≠ sortValues df6 "hoursLeft" true
  ∧ sortValues df6 "hoursLeft" true = df6 := by
  constructor
  · decide
  · decide

/-- Claim C6, amended.  "endDate asc" and "endDate desc" sort by the raw
`endDate` column (the first present of `endDate`, `endsAt`, `expiry`),
comparing the stored values directly, not by the derived `hoursLeft`. -/
theorem sort_endDate_uses_raw_column (df : DataFrame)
    (h : "endDate" ∈ df.cols) :
    sort_dataframe df "endDate asc" = sortValues df "endDate" true
  ∧ sort_dataframe df "endDate desc" = sortValues df "endDate" false := by
  have h1 : firstDateCol df.cols = some "endDate" := by
    unfold firstDateCol
    rw [if_pos h]
  constructor <;> simp [sort_dataframe, h1]

theorem sort_endDate_uses_raw_column_witness :
    sort_dataframe df6 "endDate asc" = sortValues df6 "endDate" true
  ∧ sort_dataframe df6 "endDate desc" = sortValues df6 "endDate" false :=
  sort_endDate_uses_raw_column df6 (by decide)

/-- The shapes of a selected date value for which `hours_to_expiry` takes a
sentinel branch: a non-string (in particular None, when all date fields are
absent), the empty string, or a string `fromisoformat` rejects. -/
def sentinelShape (v : Value) : Prop :=
  match v with
  | Value.str s => s = "" ∨ fromisoformat (replaceZ s) = Option.none
  | _ => True

/-- Claim C7.  Whenever the selected date value is not a non-empty string
(in particular when all three date fields are absent), or is a string on
which the ISO-8601 parse fails, `hours_to_expiry` returns the fixed
sentinel `0.0` — the same sentinel in every such case. -/
theorem hours_to_expiry_sentinel_zero (now : ℤ)
    (m : List (String × Value)) (v : Value)
    (hsel : pyOr3 (dictGet m "endsAt") (dictGet m "endDate")
      (dictGet m "expiry") = Except.ok v)
    (hbad : sentinelShape v) :
    hours_to_expiry now m = Except.ok 0 := by
  have hbody : hours_to_expiry now m = hoursFromChosen now v := by
    unfold hours_to_expiry
    rw [hsel]
    rfl
  rw [hbody]
  unfold sentinelShape at hbad
  cases v with
  | str s =>
      rcases hbad with hempty | hparse
      · simp [hoursFromChosen, hempty]
      · by_cases hs : s = ""
        · simp [hoursFromChosen, hs]
        · simp [hoursFromChosen, hs, hparse]
  | none => rfl
  | nan => rfl
  | na => rfl
  | num q => rfl

theorem hours_to_expiry_sentinel_zero_witness :
    hours_to_expiry 0 [] = Except.ok 0
  ∧ hours_to_expiry 0 [("endDate", Value.str "not-a-date")] = Except.ok 0 :=
  ⟨hours_to_expiry_sentinel_zero 0 [] Value.none rfl trivial,
   hours_to_expiry_sentinel_zero 0 [("endDate", Value.str "not-a-date")]
     (Value.str "not-a-date") rfl (Or.inr rfl)⟩

/-- The raw frame of claim C8's failing input: no price columns at all, so
after normalization `probability` is pandas `NA` on every record. -/
def df8 : DataFrame :=
  ⟨["question", "openInterest"],
   [[("question", Value.str "q"), ("openInterest", Value.num 5)]]⟩

/-- Claim C8.  The claim that a predicate whose field is absent from every
record is a no-op is contradicted by the code: normalizing a collection
with no price columns makes `probability` the `pd.NA` marker on every
record, the `probability` column nevertheless exists, and the
`>= min_prob` row mask over `pd.NA` raises `ValueError` instead of the
predicate being skipped. -/
theorem filter_min_prob_raises_on_all_na :
    (add_computed_columns 0 df8).map
        (fun d => d.rows.map (fun r => isMissing (cell r "probability")))
      = Except.ok [true]
  ∧ (add_computed_columns 0 df8).bind
        (fun d => filter_dataframe d "" [] false (1 / 2) 0 0)
      = Except.error PyErr.valueError := ⟨rfl, rfl⟩

/-- The frame of claim C9's counterexample: an `endDate` column but no
derived `hoursLeft` column. -/
def df9 : DataFrame :=
  ⟨["endDate"], [[("endDate", Value.str "b")], [("endDate", Value.str "a")]]⟩

/-- Claim C9, counterexample.  With the spec's mapping ("endDate asc" →
time-remaining field), a collection lacking `hoursLeft` should be returned
unchanged; the code instead sorts it by the raw `endDate` column, changing
the order. -/
theorem sort_fallback_mapped_field_cex :
    "hoursLeft" ∉ df9.cols ∧ sort_dataframe df9 "endDate asc" ≠ df9 := by
  constructor
  · decide
  · decide

/-- Does the sort option fall through to the identity: an unknown key, or a
known key all of whose implementation-mapped columns are absent
(`volume24hr`; `openInterest`; all of `endDate`, `endsAt`, `expiry`;
`probability`)? -/
def sortFallbackCond (df : DataFrame) (opt : String) : Bool :=
  if opt = "24h volume" then decide ("volume24hr" ∉ df.cols)
  else if opt = "openInterest" then decide ("openInterest" ∉ df.cols)
  else if opt = "endDate asc" ∨ opt = "endDate desc" then
    decide (firstDateCol df.cols = Option.none)
  else if opt = "probability asc" ∨ opt = "probability desc" then
    decide ("probability" ∉ df.cols)
  else true

/-- Claim C9, amended.  The Sort Selector given a key outside the six
enumerated options, or a key all of whose implementation-mapped columns are
absent from the collection, returns the input collection unchanged and
raises no error. -/
theorem sort_identity_fallback (df : DataFrame) (opt : String)
    (h : sortFallbackCond df opt = true) : sort_dataframe df opt = df := by
  by_cases h1 : opt = "24h volume"
  · subst h1
    simp [sortFallbackCond] at h
    cases hf : firstDateCol df.cols <;>
      simp [sort_dataframe, sortByProbability, hf, h]
  by_cases h2 : opt = "openInterest"
  · subst h2
    simp [sortFallbackCond] at h
    cases hf : firstDateCol df.cols <;>
      simp [sort_dataframe, sortByProbability, hf, h]
  by_cases h3 : opt = "endDate asc"
  · subst h3
    simp [sortFallbackCond] at h
    simp [sort_dataframe, sortByProbability, h]
  by_cases h4 : opt = "endDate desc"
  · subst h4
    simp [sortFallbackCond] at h
    simp [sort_dataframe, sortByProbability, h]
  by_cases h5 : opt = "probability asc"
  · subst h5
    simp [sortFallbackCond] at h
    cases hf : firstDateCol df.cols <;>
      simp [sort_dataframe, sortByProbability, hf, h]
  by_cases h6 : opt = "probability desc"
  · subst h6
    simp [sortFallbackCond] at h
    cases hf : firstDateCol df.cols <;>
      simp [sort_dataframe, sortByProbability, hf, h]
  · cases hf : firstDateCol df.cols <;>
      simp [sort_dataframe, sortByProbability, hf, h1, h2, h3, h4, h5, h6]

theorem sort_identity_fallback_witness :
    sortFallbackCond ⟨["question"], []⟩ "bogus" = true
  ∧ sort_dataframe ⟨["question"], []⟩ "bogus" = ⟨["question"], []⟩ :=
  ⟨by decide,
   sort_identity_fallback ⟨["question"], []⟩ "bogus" (by decide)⟩

/-- The frame of claim C10's counterexample. -/
def df10 : DataFrame :=
  ⟨["question", "slug"],
   [[("question", Value.str "xyz"), ("slug", Value.str "abc")]]⟩

/-- Claim C10, counterexample.  The search text is used as a regular
expression, not a literal substring: searching for `"a.c"` keeps the record
with `slug = "abc"` (the `.` matches `b`), although neither `question` nor
`slug` contains `"a.c"` as a substring. -/
theorem search_regex_not_substring_cex :
    filter_dataframe df10 "a.c" [] false 0 0 0 = Except.ok df10
  ∧ specContainsCI "a.c" "abc" = false
  ∧ specContainsCI "a.c" "xyz" = false := ⟨rfl, rfl, rfl⟩

/-- Claim C10, amended.  For a search text free of regular expression
metacharacters (within the modelled fragment: no `.`), the search predicate
keeps a record exactly when its `question` or its `slug` contains the text
as a case-insensitive substring. -/
theorem searchKeep_iff_substring (cols : List String) (r : Row)
    (text q sl : String)
    (hq : "question" ∈ cols) (hs : "slug" ∈ cols)
    (hcq : cell r "question" = Value.str q)
    (hcs : cell r "slug" = Value.str sl)
    (hdot : '.' ∉ lowerChars text.data) :
    searchKeep cols r text
      = (specContainsCI text q || specContainsCI text sl) := by
  unfold searchKeep specContainsCI
  rw [if_pos hq, if_pos hs, hcq, hcs]
  simp only [pyStrContains]
  rw [reSearch_eq_contains _ _ hdot, reSearch_eq_contains _ _ hdot]

theorem searchKeep_iff_substring_witness :
    searchKeep ["question", "slug"]
        [("question", Value.str "Will Candidate-X-Election resolve"),
         ("slug", Value.str "team-a-win")] "candidate"
      = (specContainsCI "candidate" "Will Candidate-X-Election resolve"
          || specContainsCI "candidate" "team-a-win") :=
  searchKeep_iff_substring ["question", "slug"]
    [("question", Value.str "Will Candidate-X-Election resolve"),
     ("slug", Value.str "team-a-win")]
    "candidate" "Will Candidate-X-Election resolve" "team-a-win"
    (by decide) (by decide) rfl rfl (by decide)

end PMA
